import Mathlib

/-!
Shallow embedding of the "Gesture Dash" runner game
(src/unnamed/part_000 = RunnerGame component, src/services/vision.ts,
src/unnamed/part_001 = commentary service).

Numbers are modelled as exact rationals (every constant in the source is a
decimal with denominator 5 at most).  Randomness (Math.random draws) and the
vision pipeline inputs (webcam readiness, the MediaPipe landmark sets) are
passed in explicitly as per-frame oracle inputs.  React `useState` cells are
fields of `AppState`; the `useCallback [gameState]` closure semantics of
`tick` (phase checks inside one frame all read the phase the frame started
with) are reproduced by reading `st.gameState` once.
-/

namespace GestureDash

inductive GameState where
  | START
  | PLAYING
  | GAME_OVER
deriving DecidableEq, Repr

inductive GestureType where
  | NONE
  | OPEN_PALM
  | CLOSED_FIST
  | THUMBS_UP
deriving DecidableEq, Repr

inductive ObsType where
  | CACTUS
  | BIRD
deriving DecidableEq, Repr

structure VisionState where
  handCount : ℕ
  gesture : GestureType
  isTurbo : Bool
deriving DecidableEq, Repr

/-- A MediaPipe normalized landmark (vision.ts uses only the y coordinate). -/
structure Landmark where
  x : ℚ
  y : ℚ
  z : ℚ
deriving DecidableEq

/-- One detected hand: the fixed indexed family of 21 landmarks,
modelled as the indexing function `landmarks[i]`. -/
abbrev Hand := ℕ → Landmark

structure Player where
  x : ℚ
  y : ℚ
  width : ℚ
  height : ℚ
  color : String
  vy : ℚ
  isJumping : Bool
  isDucking : Bool
deriving DecidableEq, Repr

structure Obstacle where
  x : ℚ
  y : ℚ
  width : ℚ
  height : ℚ
  color : String
  type : ObsType
deriving DecidableEq, Repr

/-- The mutable `gameRef.current` aggregate. -/
structure Game where
  player : Player
  obstacles : List Obstacle
  frameCount : ℕ
  currentSpeed : ℚ
  score : ℕ
deriving DecidableEq, Repr

/-- The whole component state: React state cells plus the game ref, plus the
list of in-flight commentary requests (scores passed to
`generateGameOverMessage` whose promise has not resolved yet). -/
structure AppState where
  gameState : GameState
  scoreUI : ℕ
  visionState : VisionState
  aiMessage : String
  game : Game
  pending : List ℕ
deriving DecidableEq, Repr

/-- Per-frame oracle input: webcam readiness (`readyState === 4`), whether
the HandLandmarker model is initialized, `video.videoWidth`, the detected
hands, and the two `Math.random()` draws the spawner may consume. -/
structure FrameInput where
  videoReady : Bool
  modelReady : Bool
  videoWidth : ℕ
  hands : List Hand
  spawnRoll : ℚ
  typeRoll : ℚ

-- Game constants (part_000 lines 9-17)
def GRAVITY : ℚ := 0.6
def JUMP_FORCE : ℚ := -12
def GROUND_Y : ℚ := 350
def DUCK_HEIGHT : ℚ := 30
def NORMAL_HEIGHT : ℚ := 60
def CANVAS_WIDTH : ℚ := 800
def CANVAS_HEIGHT : ℚ := 450
def BASE_SPEED : ℚ := 6
def TURBO_SPEED_MULTIPLIER : ℚ := 1.8

-- vision.ts -------------------------------------------------------------

/-- vision.ts `isExtended`: tip is higher than PIP (y axis inverted). -/
def isExtended (tip pip : Landmark) : Bool := decide (tip.y < pip.y)

/-- vision.ts `detectGesture`. -/
def detectGesture (landmarks : Hand) : GestureType :=
  let thumbTip := landmarks 4
  let thumbIp := landmarks 3
  let indexOpen := isExtended (landmarks 8) (landmarks 6)
  let middleOpen := isExtended (landmarks 12) (landmarks 10)
  let ringOpen := isExtended (landmarks 16) (landmarks 14)
  let pinkyOpen := isExtended (landmarks 20) (landmarks 18)
  let extendedCount := ([indexOpen, middleOpen, ringOpen, pinkyOpen].filter id).length
  if thumbTip.y < thumbIp.y ∧ extendedCount = 0 then GestureType.THUMBS_UP
  else if 3 ≤ extendedCount then GestureType.OPEN_PALM
  else if extendedCount ≤ 1 then GestureType.CLOSED_FIST
  else GestureType.NONE

/-- The `for ... break` loop of `processVideoFrame`: first non-NONE gesture. -/
def firstGesture : List Hand → GestureType
  | [] => GestureType.NONE
  | h :: hs =>
    let g := detectGesture h
    if g ≠ GestureType.NONE then g else firstGesture hs

/-- vision.ts `processVideoFrame`. -/
def processVideoFrame (modelReady : Bool) (videoWidth : ℕ) (hands : List Hand) :
    VisionState :=
  if modelReady = false ∨ videoWidth = 0 then
    { handCount := 0, gesture := GestureType.NONE, isTurbo := false }
  else
    { handCount := hands.length
      gesture := firstGesture hands
      isTurbo := decide (2 ≤ hands.length) }

-- part_001 (gemini service) ---------------------------------------------

/-- part_001 `generateGameOverMessage`, modelled by its deterministic
no-API-key branch (the API call is an external collaborator; every local
branch embeds the score into the returned string). -/
def generateGameOverMessage (score : ℕ) : String :=
  "Game Over! You scored " ++ toString score ++ ". (Add API Key for AI roasts)"

-- part_000: initial state -------------------------------------------------

/-- The initial `gameRef.current.player` (part_000 lines 38-47),
identical to the record built by `resetGame`. -/
def initPlayer : Player :=
  { x := 50
    y := GROUND_Y - NORMAL_HEIGHT
    width := 40
    height := NORMAL_HEIGHT
    color := "#00ffcc"
    vy := 0
    isJumping := false
    isDucking := false }

/-- The initial `gameRef.current` (part_000 lines 37-52). -/
def initGame : Game :=
  { player := initPlayer
    obstacles := []
    frameCount := 0
    currentSpeed := BASE_SPEED
    score := 0 }

/-- The initial React/component state. -/
def initAppState : AppState :=
  { gameState := GameState.START
    scoreUI := 0
    visionState := { handCount := 0, gesture := GestureType.NONE, isTurbo := false }
    aiMessage := ""
    game := initGame
    pending := [] }

/-- part_000 `resetGame` (lines 95-115): fresh game ref, score display 0,
commentary text cleared, phase PLAYING.  In-flight commentary requests are
not cancelled. -/
def resetGame (st : AppState) : AppState :=
  { st with game := initGame, scoreUI := 0, aiMessage := "", gameState := GameState.PLAYING }

-- part_000: per-frame pieces of `tick` ------------------------------------

/-- The duck branch of the input handling (part_000 lines 149-156):
mark ducking, shrink to duck height, pin feet to the ground line,
and fast-fall (`vy += 2`) if airborne. -/
def duckStep (p : Player) : Player :=
  { p with
      isDucking := true
      height := DUCK_HEIGHT
      y := GROUND_Y - DUCK_HEIGHT
      vy := if p.isJumping then p.vy + 2 else p.vy }

/-- The gravity / vertical-integration block (part_000 lines 187-195). -/
def physStep (p : Player) : Player :=
  if p.y < GROUND_Y - p.height ∨ p.vy < 0 then
    { p with y := p.y + p.vy, vy := p.vy + GRAVITY, isJumping := true }
  else
    { p with vy := 0, isJumping := false, y := GROUND_Y - p.height }

/-- The AABB overlap test of the collision check (part_000 lines 213-218). -/
def aabbHit (p : Player) (o : Obstacle) : Bool :=
  decide (p.x < o.x + o.width) && decide (p.x + p.width > o.x) &&
  decide (p.y < o.y + o.height) && decide (p.y + p.height > o.y)

/-- The obstacle literal pushed by `spawnObstacle` (part_000 lines 76-84);
`typeRoll` is the `Math.random()` draw for the variant. -/
def newObstacle (typeRoll : ℚ) : Obstacle :=
  if typeRoll > 0.6 then
    { x := CANVAS_WIDTH, y := GROUND_Y - 90, width := 40, height := 30
      color := "#ff4444", type := ObsType.BIRD }
  else
    { x := CANVAS_WIDTH, y := GROUND_Y - 40, width := 30, height := 40
      color := "#ffaa00", type := ObsType.CACTUS }

/-- part_000 `spawnObstacle` (lines 68-87); `spawnRoll` is the
`Math.random()` draw for the per-frame Bernoulli trial. -/
def spawnObstacle (currentSpeed spawnRoll typeRoll : ℚ) (obstacles : List Obstacle) :
    List Obstacle :=
  let minGap := 250 + currentSpeed * 10
  let gapOk :=
    match obstacles.getLast? with
    | none => true
    | some lastObstacle => decide (CANVAS_WIDTH - lastObstacle.x > minGap)
  if gapOk then
    (if spawnRoll < 0.02 then obstacles ++ [newObstacle typeRoll] else obstacles)
  else obstacles

/-- Result of the single move/remove/score/collide pass over the obstacle
sequence: the surviving obstacles (in order), the score after the pass, and
the scores passed to `handleGameOver` by each collision, in call order. -/
structure PassResult where
  kept : List Obstacle
  score : ℕ
  reqs : List ℕ
deriving DecidableEq, Repr

/-- The `for (let i = obstacles.length - 1; i >= 0; i--)` pass of `tick`
(part_000 lines 201-221).  The loop walks indices downward, i.e. the list
from its end, so the head of the list is processed last; a `splice` at the
current index never disturbs the indices still to be visited.  Each step
moves the obstacle left by the scroll speed, removes it (+10 score) once its
right edge is left of 0, and then runs the AABB test (the source tests the
moved rectangle even when it was just spliced out), calling
`handleGameOver(game.score)` with the score as of that moment. -/
def goPass (speed : ℚ) (p : Player) : List Obstacle → ℕ → PassResult
  | [], s => ⟨[], s, []⟩
  | o :: os, s =>
    let r := goPass speed p os s
    let o1 : Obstacle := { o with x := o.x - speed }
    if o1.x + o1.width < 0 then
      ⟨r.kept, r.score + 10, if aabbHit p o1 then r.reqs ++ [r.score + 10] else r.reqs⟩
    else
      ⟨o1 :: r.kept, r.score, if aabbHit p o1 then r.reqs ++ [r.score] else r.reqs⟩

/-- One PLAYING-frame simulation step of `tick` after the vision block
(part_000 lines 182-228): gravity, spawn, obstacle pass, frame counter. -/
structure PlayOut where
  game : Game
  removed : ℕ
  reqs : List ℕ
deriving Repr

def playStep (g : Game) (spawnRoll typeRoll : ℚ) : PlayOut :=
  let p := physStep g.player
  let obs1 := spawnObstacle g.currentSpeed spawnRoll typeRoll g.obstacles
  let r := goPass g.currentSpeed p obs1 g.score
  ⟨{ g with
      player := p
      obstacles := r.kept
      score := r.score
      frameCount := g.frameCount + 1 },
   obs1.length - r.kept.length, r.reqs⟩

/-- The vision block of `tick` (part_000 lines 124-172): skipped wholesale
unless the webcam video reports readyState 4; otherwise store the fresh
vision state and reconcile input according to the current phase. -/
def postInput (st : AppState) (inp : FrameInput) : AppState :=
  if inp.videoReady then
    let v := processVideoFrame inp.modelReady inp.videoWidth inp.hands
    let stV := { st with visionState := v }
    match st.gameState with
    | GameState.START =>
      if v.gesture = GestureType.OPEN_PALM then
        { stV with gameState := GameState.PLAYING }
      else stV
    | GameState.GAME_OVER =>
      if v.gesture = GestureType.THUMBS_UP then resetGame stV else stV
    | GameState.PLAYING =>
      let p := stV.game.player
      let p1 :=
        if v.gesture = GestureType.OPEN_PALM ∧ p.isJumping = false then
          { p with vy := JUMP_FORCE, isJumping := true, isDucking := false }
        else p
      let p2 :=
        if v.gesture = GestureType.CLOSED_FIST then duckStep p1
        else if p1.isDucking then
          { p1 with isDucking := false, height := NORMAL_HEIGHT, y := GROUND_Y - NORMAL_HEIGHT }
        else p1
      let spd := if v.isTurbo then BASE_SPEED * TURBO_SPEED_MULTIPLIER else BASE_SPEED
      { stV with game := { stV.game with player := p2, currentSpeed := spd } }
  else st

/-- part_000 `tick` (lines 118-233), canvas guards and drawing elided
(pure rendering).  The phase tests reproduce the `useCallback [gameState]`
closure: both the early-return check and the phase dispatch read the phase
the frame started with, so a transition requested in the vision block takes
effect only on the next frame's dispatch.  `handleGameOver` contributes the
phase change to GAME_OVER and one in-flight commentary request per
collision; `setScore` is called only when an obstacle was removed. -/
def tick (st : AppState) (inp : FrameInput) : AppState :=
  let st1 := postInput st inp
  if st.gameState ≠ GameState.PLAYING then st1
  else
    let out := playStep st1.game inp.spawnRoll inp.typeRoll
    { st1 with
        game := out.game
        scoreUI := if 0 < out.removed then out.game.score else st1.scoreUI
        gameState := if out.reqs.isEmpty then st1.gameState else GameState.GAME_OVER
        pending := st1.pending ++ out.reqs }

/-- Resolution of the i-th in-flight commentary promise
(`handleGameOver`, part_000 lines 89-93): the resolved text is written to
the displayed commentary state unconditionally — there is no staleness or
session check in the source. -/
def resolveEvent (st : AppState) (i : ℕ) : AppState :=
  match st.pending.get? i with
  | some s =>
    { st with aiMessage := generateGameOverMessage s, pending := st.pending.eraseIdx i }
  | none => st

/-- The player rectangle the collision pass of a frame tests:
the post-input, post-integration player. -/
def framePlayer (st : AppState) (inp : FrameInput) : Player :=
  physStep (postInput st inp).game.player

/-- The obstacle rectangles of a frame after their positions are updated
(spawn, then shift left by the frame's scroll speed). -/
def frameObstacles (st : AppState) (inp : FrameInput) : List Obstacle :=
  (spawnObstacle (postInput st inp).game.currentSpeed inp.spawnRoll inp.typeRoll
      (postInput st inp).game.obstacles).map
    (fun o => { o with x := o.x - (postInput st inp).game.currentSpeed })

-- Claim-side (spec-worded) definitions ------------------------------------

/-- The vertical integration step exactly as the spec words it
(§4.3: feet above the ground line OR negative velocity ⇒ `y += vy; vy += 0.6`
and airborne; otherwise snap `vy = 0`, clear airborne, pin feet),
to be compared with the source's `physStep`. -/
def claimVerticalStep (p : Player) : Player :=
  if p.y + p.height < GROUND_Y ∨ p.vy < 0 then
    { p with y := p.y + p.vy, vy := p.vy + 0.6, isJumping := true }
  else
    { p with vy := 0, isJumping := false, y := GROUND_Y - p.height }

/-- The claim's extended-finger count: among index/middle/ring/pinky,
a finger counts when its tip y is smaller than its PIP y. -/
def claimExtendedCount (lm : Hand) : ℕ :=
  (if (lm 8).y < (lm 6).y then 1 else 0) +
  (if (lm 12).y < (lm 10).y then 1 else 0) +
  (if (lm 16).y < (lm 14).y then 1 else 0) +
  (if (lm 20).y < (lm 18).y then 1 else 0)

/-- The per-hand classification exactly as the spec words it (§4.1):
THUMBS_UP first (thumb tip above thumb IP and count 0), then OPEN_PALM
(count ≥ 3), then CLOSED_FIST (count ≤ 1), otherwise NONE. -/
def claimGesture (lm : Hand) : GestureType :=
  if (lm 4).y < (lm 3).y ∧ claimExtendedCount lm = 0 then GestureType.THUMBS_UP
  else if 3 ≤ claimExtendedCount lm then GestureType.OPEN_PALM
  else if claimExtendedCount lm ≤ 1 then GestureType.CLOSED_FIST
  else GestureType.NONE

-- Concrete sample inputs ---------------------------------------------------

/-- A hand whose four non-thumb fingertips are above their PIP joints. -/
def openHand : Hand := fun i => ⟨0, if i = 8 ∨ i = 12 ∨ i = 16 ∨ i = 20 then 0 else 1, 0⟩

/-- A hand with every non-thumb fingertip below its PIP joint. -/
def fistHand : Hand := fun i => ⟨0, if i = 8 ∨ i = 12 ∨ i = 16 ∨ i = 20 then 1 else 0, 0⟩

/-- A hand whose thumb tip is above its IP joint and no finger extended. -/
def thumbsHand : Hand := fun i => ⟨0, if i = 4 then 0 else 1, 0⟩

/-- A hand with exactly two extended fingers (classifies as NONE). -/
def twoExtHand : Hand := fun i => ⟨0, if i = 8 ∨ i = 12 then 0 else 1, 0⟩

/-- A frame on which the webcam video is not ready; the random draws are 1,
so no obstacle could spawn even if they were consumed. -/
def quietInput : FrameInput :=
  { videoReady := false, modelReady := false, videoWidth := 0, hands := []
    spawnRoll := 1, typeRoll := 1 }

/-- A frame with a ready webcam and initialized model seeing `hs`. -/
def seenInput (hs : List Hand) : FrameInput :=
  { videoReady := true, modelReady := true, videoWidth := 320, hands := hs
    spawnRoll := 1, typeRoll := 1 }

/-- Gesture trace reaching a mid-descent frame that steps over the ground
line: start, jump, one fast-fall duck frame, stand up, then free fall. -/
def c3Trace : List FrameInput :=
  [seenInput [openHand], seenInput [openHand], seenInput [fistHand], seenInput []] ++
  List.replicate 30 quietInput

/-- The state reached by running `c3Trace` from the initial state. -/
def c3Final : AppState := List.foldl tick initAppState c3Trace

-- Concrete states for witnesses and the C1/C8 checks -----------------------

/-- The player rectangle named by the collision-determinism check. -/
def claimPlayer : Player :=
  { x := 50, y := 290, width := 40, height := 60, color := "#00ffcc"
    vy := 0, isJumping := false, isDucking := false }

/-- The overlapping obstacle rectangle of the collision-determinism check. -/
def claimObstacleNear : Obstacle :=
  { x := 60, y := 310, width := 30, height := 40, color := "#ffaa00", type := ObsType.CACTUS }

/-- The same obstacle moved to x = 200 (no overlap). -/
def claimObstacleFar : Obstacle := { claimObstacleNear with x := 200 }

/-- A PLAYING state over the fresh game. -/
def playingState : AppState := { initAppState with gameState := GameState.PLAYING }

/-- A nontrivial GAME_OVER state: leftover obstacles, nonzero score and
frame counter, turbo speed latched, commentary shown, one in-flight request. -/
def gameOverState : AppState :=
  { gameState := GameState.GAME_OVER
    scoreUI := 30
    visionState := { handCount := 1, gesture := GestureType.NONE, isTurbo := false }
    aiMessage := "some commentary"
    game :=
      { player := { claimPlayer with y := 320, height := 30, isDucking := true }
        obstacles := [claimObstacleFar]
        frameCount := 420
        currentSpeed := BASE_SPEED * TURBO_SPEED_MULTIPLIER
        score := 30 }
    pending := [30] }

/-- An obstacle that will overlap the grounded default player after one
frame of movement at base speed. -/
def nearObstacle : Obstacle :=
  { x := 66, y := 310, width := 30, height := 40, color := "#ffaa00", type := ObsType.CACTUS }

/-- A PLAYING state at score 20 with `nearObstacle` incoming and a stale
commentary request (score 0) from a previous session still in flight. -/
def staleState : AppState :=
  { gameState := GameState.PLAYING
    scoreUI := 20
    visionState := { handCount := 0, gesture := GestureType.NONE, isTurbo := false }
    aiMessage := ""
    game :=
      { player := initPlayer
        obstacles := [nearObstacle]
        frameCount := 250
        currentSpeed := BASE_SPEED
        score := 20 }
    pending := [0] }

/-- The frame in which `staleState` collides: a second game-over at score
20 is reported while the score-0 request is still pending. -/
def staleState2 : AppState := tick staleState quietInput

/-- The score-20 commentary resolves first... -/
def staleState3 : AppState := resolveEvent staleState2 1

/-- ...and then the stale score-0 response from the previous session
arrives and is written last. -/
def staleState4 : AppState := resolveEvent staleState3 0

/-- A mid-descent player one frame away from stepping over the ground
line (y = 287, vy = 9.2; one integration step lands at y = 296.2). -/
def pOver : Player := { claimPlayer with y := 287, vy := 9.2 }

/-- An obstacle just left of the field: one more base-speed step puts its
right edge past x = 0 (removal, +10). -/
def leavingObstacle : Obstacle :=
  { x := -25, y := 310, width := 30, height := 40, color := "#ffaa00", type := ObsType.CACTUS }

/-- A PLAYING state at score 20 whose only obstacle exits the field on the
next frame. -/
def exitingState : AppState :=
  { staleState with
      game := { staleState.game with obstacles := [leavingObstacle] }
      pending := [] }

-- Helper lemmas -----------------------------------------------------------

theorem goPass_kept (v : ℚ) (p : Player) (l : List Obstacle) (s : ℕ) :
    (goPass v p l s).kept =
      (l.map (fun o => { o with x := o.x - v })).filter
        (fun o => !decide (o.x + o.width < 0)) := by
  induction l with
  | nil => rfl
  | cons o os ih =>
    simp only [goPass, List.map_cons, List.filter_cons]
    by_cases h : o.x - v + o.width < 0 <;> simp [h, ih]

theorem goPass_score (v : ℚ) (p : Player) (l : List Obstacle) (s : ℕ) :
    (goPass v p l s).score =
      s + 10 * ((l.map (fun o => { o with x := o.x - v })).filter
        (fun o => decide (o.x + o.width < 0))).length := by
  induction l with
  | nil => simp [goPass]
  | cons o os ih =>
    simp only [goPass, List.map_cons, List.filter_cons]
    by_cases h : o.x - v + o.width < 0
    · simp [h, ih]
      ring
    · simp [h, ih]

theorem goPass_reqs_nil (v : ℚ) (p : Player) (l : List Obstacle) (s : ℕ) :
    (goPass v p l s).reqs = [] ↔
      ∀ o ∈ l, aabbHit p { o with x := o.x - v } = false := by
  induction l with
  | nil => simp [goPass]
  | cons o os ih =>
    simp only [goPass, List.mem_cons]
    by_cases hoff : o.x - v + o.width < 0 <;>
      by_cases hhit : aabbHit p { o with x := o.x - v } = true <;>
      simp [hoff, hhit, ih]

theorem playStep_player (g : Game) (r1 r2 : ℚ) :
    (playStep g r1 r2).game.player = physStep g.player := rfl

theorem playStep_speed (g : Game) (r1 r2 : ℚ) :
    (playStep g r1 r2).game.currentSpeed = g.currentSpeed := rfl

theorem playStep_frameCount (g : Game) (r1 r2 : ℚ) :
    (playStep g r1 r2).game.frameCount = g.frameCount + 1 := rfl

theorem playStep_obstacles (g : Game) (r1 r2 : ℚ) :
    (playStep g r1 r2).game.obstacles =
      (goPass g.currentSpeed (physStep g.player)
        (spawnObstacle g.currentSpeed r1 r2 g.obstacles) g.score).kept := rfl

theorem playStep_score (g : Game) (r1 r2 : ℚ) :
    (playStep g r1 r2).game.score =
      (goPass g.currentSpeed (physStep g.player)
        (spawnObstacle g.currentSpeed r1 r2 g.obstacles) g.score).score := rfl

theorem playStep_reqs (g : Game) (r1 r2 : ℚ) :
    (playStep g r1 r2).reqs =
      (goPass g.currentSpeed (physStep g.player)
        (spawnObstacle g.currentSpeed r1 r2 g.obstacles) g.score).reqs := rfl

theorem postInput_not_ready (st : AppState) (inp : FrameInput)
    (h : inp.videoReady = false) : postInput st inp = st := by
  simp [postInput, h]

theorem postInput_playing (st : AppState) (inp : FrameInput)
    (h : st.gameState = GameState.PLAYING) :
    (postInput st inp).gameState = GameState.PLAYING ∧
    (postInput st inp).game.score = st.game.score ∧
    (postInput st inp).game.obstacles = st.game.obstacles ∧
    (postInput st inp).game.frameCount = st.game.frameCount ∧
    (postInput st inp).aiMessage = st.aiMessage ∧
    (postInput st inp).scoreUI = st.scoreUI ∧
    (postInput st inp).pending = st.pending := by
  unfold postInput
  by_cases hv : inp.videoReady = true
  · rw [h]
    simp [hv]
  · simp at hv
    simp [hv, h]

theorem tick_playing_game (st : AppState) (inp : FrameInput)
    (h : st.gameState = GameState.PLAYING) :
    (tick st inp).game =
      (playStep (postInput st inp).game inp.spawnRoll inp.typeRoll).game := by
  simp [tick, h]

theorem tick_playing_gameState (st : AppState) (inp : FrameInput)
    (h : st.gameState = GameState.PLAYING) :
    (tick st inp).gameState =
      (if (playStep (postInput st inp).game inp.spawnRoll inp.typeRoll).reqs.isEmpty
       then GameState.PLAYING else GameState.GAME_OVER) := by
  simp only [tick, h]
  simp [(postInput_playing st inp h).1]

theorem tick_playing_pending (st : AppState) (inp : FrameInput)
    (h : st.gameState = GameState.PLAYING) :
    (tick st inp).pending =
      st.pending ++ (playStep (postInput st inp).game inp.spawnRoll inp.typeRoll).reqs := by
  simp only [tick, h]
  simp [(postInput_playing st inp h).2.2.2.2.2.2]

theorem tick_playing_visionState_not_ready (st : AppState) (inp : FrameInput)
    (h : inp.videoReady = false) :
    (tick st inp).visionState = st.visionState := by
  by_cases hp : st.gameState = GameState.PLAYING <;>
    simp [tick, hp, postInput_not_ready st inp h]

-- Claim theorems ----------------------------------------------------------

/-- C2: in every PLAYING frame the vertical integration step is exactly the
spec's conditional (feet above the ground line or negative velocity ⇒
`y += vy; vy += GRAVITY`, airborne; otherwise snap, clear airborne, pin
feet), with GRAVITY = 0.6, jump impulse = -12, base speed = 6, turbo
multiplier = 1.8, duck height = 30, normal height = 60. -/
theorem vertical_integration_c2 :
    (∀ p : Player, physStep p = claimVerticalStep p) ∧
    GRAVITY = 0.6 ∧ JUMP_FORCE = -12 ∧ BASE_SPEED = 6 ∧
    TURBO_SPEED_MULTIPLIER = 1.8 ∧ DUCK_HEIGHT = 30 ∧ NORMAL_HEIGHT = 60 ∧
    (∀ st inp, st.gameState = GameState.PLAYING →
      (tick st inp).game.player = physStep (postInput st inp).game.player) := by
  refine ⟨?_, rfl, rfl, rfl, rfl, rfl, rfl, ?_⟩
  · intro p
    unfold physStep claimVerticalStep GRAVITY
    exact if_congr (or_congr_left lt_sub_iff_add_lt) rfl rfl
  · intro st inp h
    rw [tick_playing_game st inp h, playStep_player]

/-- Witness for C2 at a concrete PLAYING frame. -/
theorem vertical_integration_c2_witness :
    (tick playingState quietInput).game.player =
      physStep (postInput playingState quietInput).game.player :=
  vertical_integration_c2.2.2.2.2.2.2.2 playingState quietInput rfl

/-- C3 (amended): after integration the feet can be strictly below the
ground line only transiently while airborne — the grounded branch pins
`y + height = GROUND_Y` exactly, any overshoot state is airborne, and a
nonnegative-velocity overshoot is snapped back by the next integration. -/
theorem ground_line_amended_c3 (p : Player) :
    ((physStep p).isJumping = false →
      (physStep p).y + (physStep p).height = GROUND_Y) ∧
    (GROUND_Y < (physStep p).y + (physStep p).height →
      (physStep p).isJumping = true) ∧
    (GROUND_Y < (physStep p).y + (physStep p).height → 0 ≤ (physStep p).vy →
      (physStep (physStep p)).y + (physStep (physStep p)).height = GROUND_Y) := by
  by_cases h : p.y < GROUND_Y - p.height ∨ p.vy < 0
  · simp only [physStep, if_pos h]
    refine ⟨?_, ?_, ?_⟩
    · intro hj
      simp at hj
    · intro _
      trivial
    · intro hover hvy
      have hcond : ¬(p.y + p.vy < GROUND_Y - p.height ∨ p.vy + GRAVITY < 0) := by
        push_neg
        exact ⟨by linarith, hvy⟩
      simp only [physStep, if_neg hcond]
      ring
  · simp only [physStep, if_neg h]
    refine ⟨?_, ?_, ?_⟩
    · intro _
      ring
    · intro hover
      exfalso
      linarith
    · intro hover
      exfalso
      linarith

set_option maxRecDepth 10000 in
unseal Rat.add Rat.sub Rat.mul Rat.inv Rat.ofScientific in
/-- Witness for C3 (amended): the grounded branch pins the default player,
and the concrete overshoot state `pOver` is airborne and snapped back. -/
theorem ground_line_amended_c3_witness :
    ((physStep initPlayer).y + (physStep initPlayer).height = GROUND_Y) ∧
    ((physStep pOver).isJumping = true) ∧
    ((physStep (physStep pOver)).y + (physStep (physStep pOver)).height = GROUND_Y) := by
  refine ⟨(ground_line_amended_c3 initPlayer).1 ?_,
    (ground_line_amended_c3 pOver).2.1 ?_,
    (ground_line_amended_c3 pOver).2.2 ?_ ?_⟩ <;>
    decide

set_option maxRecDepth 10000 in
unseal Rat.add Rat.sub Rat.mul Rat.inv Rat.ofScientific in
/-- C3 counterexample: a concrete reachable gesture trace (start, jump, one
fast-fall duck frame, stand up, free fall) ends a PLAYING frame, right
after its integration step, with the player's feet strictly below the
ground line (y + height = 356.2 > 350). -/
theorem ground_overshoot_cex_c3 :
    c3Final.gameState = GameState.PLAYING ∧
    GROUND_Y < c3Final.game.player.y + c3Final.game.player.height := by
  decide

/-- C6: the per-hand gesture classifier agrees everywhere with the spec's
decision list (THUMBS_UP first, then OPEN_PALM on count ≥ 3, then
CLOSED_FIST on count ≤ 1, else NONE). -/
theorem gesture_classification_c6 (lm : Hand) :
    detectGesture lm = claimGesture lm := by
  by_cases h1 : (lm 8).y < (lm 6).y <;>
    by_cases h2 : (lm 12).y < (lm 10).y <;>
    by_cases h3 : (lm 16).y < (lm 14).y <;>
    by_cases h4 : (lm 20).y < (lm 18).y <;>
    by_cases h5 : (lm 4).y < (lm 3).y <;>
    simp [detectGesture, claimGesture, claimExtendedCount, isExtended,
      h1, h2, h3, h4, h5]

/-- Witness for C6 at the four concrete sample hands. -/
theorem gesture_classification_c6_witness :
    detectGesture openHand = claimGesture openHand ∧
    detectGesture fistHand = claimGesture fistHand ∧
    detectGesture thumbsHand = claimGesture thumbsHand ∧
    detectGesture twoExtHand = claimGesture twoExtHand :=
  ⟨gesture_classification_c6 openHand, gesture_classification_c6 fistHand,
   gesture_classification_c6 thumbsHand, gesture_classification_c6 twoExtHand⟩

/-- C9: the duck transition marks ducking, shrinks to duck height, pins the
feet to the ground line, fast-falls (`vy += 2`) exactly when airborne, is
idempotent on height/position, and is what a PLAYING frame with gesture
CLOSED_FIST applies to the player. -/
theorem duck_transition_c9 :
    (∀ p : Player,
      (duckStep p).isDucking = true ∧
      (duckStep p).height = DUCK_HEIGHT ∧
      (duckStep p).y = GROUND_Y - DUCK_HEIGHT ∧
      (duckStep p).vy = (if p.isJumping = true then p.vy + 2 else p.vy) ∧
      (duckStep (duckStep p)).height = (duckStep p).height ∧
      (duckStep (duckStep p)).y = (duckStep p).y ∧
      (duckStep (duckStep p)).x = (duckStep p).x) ∧
    (∀ st inp, st.gameState = GameState.PLAYING → inp.videoReady = true →
      (processVideoFrame inp.modelReady inp.videoWidth inp.hands).gesture =
        GestureType.CLOSED_FIST →
      (postInput st inp).game.player = duckStep st.game.player) := by
  constructor
  · intro p
    exact ⟨rfl, rfl, rfl, rfl, rfl, rfl, rfl⟩
  · intro st inp h1 h2 h3
    unfold postInput
    rw [h1]
    simp [h2, h3]

set_option maxRecDepth 10000 in
unseal Rat.add Rat.sub Rat.mul Rat.inv Rat.ofScientific in
/-- Witness for C9: a PLAYING frame seeing a fist applies `duckStep`. -/
theorem duck_transition_c9_witness :
    (postInput playingState (seenInput [fistHand])).game.player =
      duckStep playingState.game.player := by
  refine duck_transition_c9.2 playingState (seenInput [fistHand]) rfl rfl ?_
  decide

theorem frame_pass_facts (st : AppState) (inp : FrameInput)
    (h : st.gameState = GameState.PLAYING) :
    ((∃ o ∈ frameObstacles st inp, aabbHit (framePlayer st inp) o = true) →
      (tick st inp).gameState = GameState.GAME_OVER) ∧
    ((tick st inp).game.obstacles =
      (frameObstacles st inp).filter (fun o => !decide (o.x + o.width < 0))) ∧
    ((tick st inp).game.score =
      st.game.score +
        10 * ((frameObstacles st inp).filter
          (fun o => decide (o.x + o.width < 0))).length) := by
  have hg := tick_playing_game st inp h
  refine ⟨?_, ?_, ?_⟩
  · rintro ⟨o, ho, hhit⟩
    rw [tick_playing_gameState st inp h]
    have hne : (playStep (postInput st inp).game inp.spawnRoll inp.typeRoll).reqs ≠ [] := by
      intro hnil
      rw [playStep_reqs, goPass_reqs_nil] at hnil
      simp only [frameObstacles, List.mem_map] at ho
      obtain ⟨a, ha, rfl⟩ := ho
      have := hnil a ha
      rw [framePlayer] at hhit
      rw [hhit] at this
      cases this
    simp [List.isEmpty_iff, hne]
  · rw [hg, playStep_obstacles, goPass_kept]
    rfl
  · rw [hg, playStep_score, goPass_score, (postInput_playing st inp h).2.1]
    rfl

/-- C1: the concrete AABB checks of the spec hold, and in every PLAYING
frame a post-update overlap with any obstacle of the pass forces the
transition to GAME_OVER, while off-screen removal and its +10 scoring
happen for every obstacle of the same single pass regardless of any
collision found in it. -/
theorem collision_single_pass_c1 :
    aabbHit claimPlayer claimObstacleNear = true ∧
    aabbHit claimPlayer claimObstacleFar = false ∧
    ∀ st inp, st.gameState = GameState.PLAYING →
      ((∃ o ∈ frameObstacles st inp, aabbHit (framePlayer st inp) o = true) →
        (tick st inp).gameState = GameState.GAME_OVER) ∧
      ((tick st inp).game.obstacles =
        (frameObstacles st inp).filter (fun o => !decide (o.x + o.width < 0))) ∧
      ((tick st inp).game.score =
        st.game.score +
          10 * ((frameObstacles st inp).filter
            (fun o => decide (o.x + o.width < 0))).length) := by
  refine ⟨?_, ?_, fun st inp h => frame_pass_facts st inp h⟩
  · simp [aabbHit, claimPlayer, claimObstacleNear]
    norm_num
  · simp [aabbHit, claimPlayer, claimObstacleFar]
    norm_num

set_option maxRecDepth 10000 in
unseal Rat.add Rat.sub Rat.mul Rat.inv Rat.ofScientific in
/-- Witness for C1: the incoming obstacle of `staleState` overlaps the
player after the frame's position updates and the frame ends GAME_OVER. -/
theorem collision_single_pass_c1_witness :
    (tick staleState quietInput).gameState = GameState.GAME_OVER := by
  refine (collision_single_pass_c1.2.2 staleState quietInput rfl).1 ?_
  decide

/-- C4: in a PLAYING frame the score never decreases, and it changes by
exactly 10 for each obstacle of the frame whose right edge crossed the left
boundary — the same obstacles that are removed from the sequence — and by
no other means. -/
theorem score_accounting_c4 (st : AppState) (inp : FrameInput)
    (h : st.gameState = GameState.PLAYING) :
    st.game.score ≤ (tick st inp).game.score ∧
    ((tick st inp).game.score =
      st.game.score +
        10 * ((frameObstacles st inp).filter
          (fun o => decide (o.x + o.width < 0))).length) ∧
    ((tick st inp).game.obstacles =
      (frameObstacles st inp).filter (fun o => !decide (o.x + o.width < 0))) := by
  have h2 := (frame_pass_facts st inp h).2
  refine ⟨?_, h2.2, h2.1⟩
  rw [h2.2]
  exact Nat.le_add_right _ _

set_option maxRecDepth 10000 in
unseal Rat.add Rat.sub Rat.mul Rat.inv Rat.ofScientific in
/-- Witness for C4: the exiting obstacle of `exitingState` is removed and
credits exactly 10. -/
theorem score_accounting_c4_witness :
    (tick exitingState quietInput).game.score = 30 ∧
    (tick exitingState quietInput).game.obstacles = [] := by
  have h := score_accounting_c4 exitingState quietInput rfl
  refine ⟨?_, ?_⟩
  · rw [h.2.1]
    decide
  · rw [h.2.2]
    decide

/-- C5: any GAME_OVER frame whose fresh vision state reports THUMBS_UP
transitions to PLAYING and restores the simulation state exactly to its
initial value, with the commentary text and displayed score cleared. -/
theorem reset_on_thumbs_up_c5 (st : AppState) (inp : FrameInput)
    (h1 : st.gameState = GameState.GAME_OVER)
    (h2 : inp.videoReady = true)
    (h3 : (processVideoFrame inp.modelReady inp.videoWidth inp.hands).gesture =
      GestureType.THUMBS_UP) :
    (tick st inp).gameState = GameState.PLAYING ∧
    (tick st inp).game = initGame ∧
    (tick st inp).aiMessage = "" ∧
    (tick st inp).scoreUI = 0 ∧
    initGame.player = initPlayer ∧ initPlayer.x = 50 ∧
    initPlayer.y = GROUND_Y - NORMAL_HEIGHT ∧ initPlayer.height = NORMAL_HEIGHT ∧
    initPlayer.vy = 0 ∧ initPlayer.isJumping = false ∧ initPlayer.isDucking = false ∧
    initGame.obstacles = [] ∧ initGame.frameCount = 0 ∧
    initGame.currentSpeed = BASE_SPEED ∧ initGame.score = 0 := by
  have ht : tick st inp = postInput st inp := by
    simp [tick, h1]
  have hp : postInput st inp =
      resetGame { st with visionState := processVideoFrame inp.modelReady inp.videoWidth inp.hands } := by
    unfold postInput
    rw [h1]
    simp [h2, h3]
  rw [ht, hp]
  exact ⟨rfl, rfl, rfl, rfl, rfl, rfl, rfl, rfl, rfl, rfl, rfl, rfl, rfl, rfl, rfl⟩

set_option maxRecDepth 10000 in
unseal Rat.add Rat.sub Rat.mul Rat.inv Rat.ofScientific in
/-- Witness for C5: the nontrivial `gameOverState` is reset exactly to the
initial simulation state by a thumbs-up frame. -/
theorem reset_on_thumbs_up_c5_witness :
    (tick gameOverState (seenInput [thumbsHand])).game = initGame ∧
    (tick gameOverState (seenInput [thumbsHand])).gameState = GameState.PLAYING ∧
    (tick gameOverState (seenInput [thumbsHand])).aiMessage = "" := by
  have h := reset_on_thumbs_up_c5 gameOverState (seenInput [thumbsHand]) rfl rfl (by decide)
  exact ⟨h.2.1, h.1, h.2.2.1⟩

/-- C7: in a PLAYING frame with a ready video, the scroll speed used for
the frame is recomputed from the frame's own vision state — turbo speed
exactly when it reports `isTurbo`, which holds exactly when it reports two
or more hands, whatever the gesture — independently of any previous speed. -/
theorem turbo_speed_c7 (st : AppState) (inp : FrameInput)
    (h1 : st.gameState = GameState.PLAYING)
    (h2 : inp.videoReady = true) :
    ((tick st inp).game.currentSpeed =
      if (processVideoFrame inp.modelReady inp.videoWidth inp.hands).isTurbo = true
      then BASE_SPEED * TURBO_SPEED_MULTIPLIER else BASE_SPEED) ∧
    ((processVideoFrame inp.modelReady inp.videoWidth inp.hands).isTurbo = true ↔
      2 ≤ (processVideoFrame inp.modelReady inp.videoWidth inp.hands).handCount) := by
  constructor
  · rw [tick_playing_game st inp h1, playStep_speed]
    unfold postInput
    rw [h1]
    simp [h2]
  · unfold processVideoFrame
    by_cases hm : inp.modelReady = false ∨ inp.videoWidth = 0 <;> simp [hm]

set_option maxRecDepth 10000 in
unseal Rat.add Rat.sub Rat.mul Rat.inv Rat.ofScientific in
/-- Witness for C7: two hands showing no recognized gesture still force the
turbo speed 6 × 1.8 on a PLAYING frame. -/
theorem turbo_speed_c7_witness :
    (tick playingState (seenInput [twoExtHand, twoExtHand])).game.currentSpeed =
      BASE_SPEED * TURBO_SPEED_MULTIPLIER := by
  have h := (turbo_speed_c7 playingState (seenInput [twoExtHand, twoExtHand]) rfl rfl).1
  rw [h]
  decide

/-- C10: when the webcam video is not ready the whole input-reconciliation
step is skipped rather than applied with a neutral reading: the stored
vision state and the current scroll speed keep their previous values, a
non-PLAYING frame changes nothing at all, and a PLAYING frame still runs
physics, spawning and collision on the untouched player and speed. -/
theorem video_not_ready_c10 (st : AppState) (inp : FrameInput)
    (h : inp.videoReady = false) :
    (tick st inp).visionState = st.visionState ∧
    (tick st inp).game.currentSpeed = st.game.currentSpeed ∧
    (st.gameState ≠ GameState.PLAYING → tick st inp = st) ∧
    (st.gameState = GameState.PLAYING →
      (tick st inp).game = (playStep st.game inp.spawnRoll inp.typeRoll).game ∧
      (tick st inp).game.player = physStep st.game.player) := by
  refine ⟨tick_playing_visionState_not_ready st inp h, ?_, ?_, ?_⟩
  · by_cases hp : st.gameState = GameState.PLAYING
    · rw [tick_playing_game st inp hp, playStep_speed, postInput_not_ready st inp h]
    · simp [tick, hp, postInput_not_ready st inp h]
  · intro hne
    simp [tick, hne, postInput_not_ready st inp h]
  · intro hp
    have hg : (tick st inp).game = (playStep st.game inp.spawnRoll inp.typeRoll).game := by
      rw [tick_playing_game st inp hp, postInput_not_ready st inp h]
    exact ⟨hg, by rw [hg, playStep_player]⟩

/-- Witness for C10: a not-ready frame in the START phase is a no-op. -/
theorem video_not_ready_c10_witness :
    tick initAppState quietInput = initAppState :=
  (video_not_ready_c10 initAppState quietInput rfl).2.2.1 (by decide)

set_option maxRecDepth 10000 in
unseal Rat.add Rat.sub Rat.mul Rat.inv Rat.ofScientific in
/-- C8 evaluated at its failing input: with the score-0 request of a
previous session still in flight, a new session's game-over at score 20 is
followed by the score-20 response and then by the stale score-0 response;
the source writes the stale text to the displayed commentary field of the
GAME_OVER screen instead of discarding it. -/
theorem stale_commentary_c8 :
    staleState2.gameState = GameState.GAME_OVER ∧
    staleState2.pending = [0, 20] ∧
    staleState3.aiMessage = generateGameOverMessage 20 ∧
    staleState4.aiMessage = generateGameOverMessage 0 ∧
    staleState4.gameState = GameState.GAME_OVER ∧
    generateGameOverMessage 0 ≠ generateGameOverMessage 20 := by
  decide

end GestureDash
